import Mathlib

/-!
Verification of the persistence layer in `src/storage/repo.py`
(`Repository`, `ContactRepository`, `NoteRepository`).

The Python code is shallowly embedded as follows.

* JSON values (`Json`) model the values Python's `json` module reads and
  writes; mappings are association lists with string keys, in insertion
  order, exactly as Python dicts serialize.
* The filesystem is a `World`: a set of directories, a partial map from
  paths to file contents, and a console (the target of `print`).  A file's
  content is classified by its parse result: either it is the complete
  serialization of a JSON value (`FileContent.jsonVal`), or it is text that
  is not valid JSON (`FileContent.invalid`) — e.g. the text
  `not valid json`, or the truncated prefix left by an interrupted
  `json.dump` (a proper prefix of a serialized JSON document is never
  itself valid JSON, since the top-level brackets are unbalanced).
* Each fallible operation is embedded as the Python code is written: a
  body of the `try` block returning `Except` (an `.error` is a raised
  Python exception, carrying the world state at the raise point), and a
  wrapper that pattern-matches on the result, embedding the `except`
  clauses that log and convert to `False` / `[]`.
* Where the outcome depends on the environment (permissions, disk state),
  the operation takes an explicit outcome oracle (`SaveOutcome`,
  `LoadOutcome`, `ClearOutcome`).  `SaveOutcome.writeFail` models the
  crucial behavior of `open(self.filepath, 'w')`: the file is truncated
  (and created if absent) as soon as it is opened, before `json.dump`
  runs, so a failure during the dump leaves invalid partial text.
-/

/-- A filesystem path, as a list of components. -/
abbrev FPath := List String

/-- JSON values, as written and read by Python's `json` module.  Numbers
are modelled by integers (no claim depends on non-integral numbers). -/
inductive Json where
  | null
  | bool (b : Bool)
  | num (n : Int)
  | str (s : String)
  | arr (items : List Json)
  | obj (fields : List (String × Json))

/-- Content of a file on disk, classified by its JSON parse result:
either the complete serialization of a value `j` (what `json.dump j`
writes and `json.load` parses back to `j`), or text that is not valid
JSON (`json.load` raises `JSONDecodeError` on it). -/
inductive FileContent where
  | jsonVal (j : Json)
  | invalid (s : String)

/-- The world the repository operations act on: which directories exist,
what each file path holds (`none` = no such file), and the console lines
printed so far. -/
structure World where
  dirs : FPath → Bool
  files : FPath → Option FileContent
  console : List String

def emptyWorld : World := ⟨fun _ => false, fun _ => none, []⟩

/-- Write content `c` at path `p` (creating the file if absent). -/
def setFile (w : World) (p : FPath) (c : FileContent) : World :=
  { w with files := fun q => if q = p then some c else w.files q }

/-- Delete the file at path `p` (`Path.unlink`). -/
def removeFile (w : World) (p : FPath) : World :=
  { w with files := fun q => if q = p then none else w.files q }

/-- Append one line to the console (`print`). -/
def logMsg (w : World) (m : String) : World :=
  { w with console := w.console ++ [m] }

/-- `Path.mkdir(parents=True, exist_ok=True)`: create the directory and
every missing ancestor; idempotent. -/
def ensureDir (w : World) (d : FPath) : World :=
  { w with dirs := fun q => w.dirs q || q.isPrefixOf d }

/-- Which Python exception class was raised, as far as `load`'s two
`except` clauses distinguish: `JSONDecodeError`/`FileNotFoundError`
versus any other `Exception`. -/
inductive PyErrKind where
  | decodeOrMissing
  | other

/-- A raised Python exception: its class (as coarsely as the code
distinguishes) and its message. -/
structure PyErr where
  kind : PyErrKind
  msg : String

/-- Environment outcome of one `save` call:
* `ok` — open, dump and close all succeed;
* `openFail e` — `open(self.filepath, 'w')` itself raises (e.g.
  permission denied, directory removed): the file is untouched;
* `writeFail e junk` — the open succeeds (truncating the file, creating
  it if absent) but `json.dump` raises part-way (non-serializable value,
  disk full): the file is left holding the invalid partial text `junk`. -/
inductive SaveOutcome where
  | ok
  | openFail (e : String)
  | writeFail (e : String) (junk : String)

/-- Environment outcome of one `load` call: `ok`, or an I/O error raised
by `open`/read (`ioFail`, caught by the catch-all `except Exception`). -/
inductive LoadOutcome where
  | ok
  | ioFail (e : String)

/-- Environment outcome of one `clear` call: `ok`, or
`Path.unlink` raising (`unlinkFail`), which leaves the file in place. -/
inductive ClearOutcome where
  | ok
  | unlinkFail (e : String)

/-- `Repository`: owns a storage directory and the file path
`storage_dir / filename`. -/
structure Repository where
  storage_dir : FPath
  filepath : FPath

/-- `Repository.__init__`: defaults `storage_dir` to
`Path.home() / '.personal_assistant'`, resolves
`filepath = storage_dir / filename`, and calls
`_ensure_storage_directory` (mkdir with parents).  `home` is the ambient
`Path.home()`. -/
def Repository.construct (w : World) (home : FPath) (filename : String)
    (sd : Option FPath) : Repository × World :=
  let storage_dir := sd.getD (home ++ [".personal_assistant"])
  (⟨storage_dir, storage_dir ++ [filename]⟩, ensureDir w storage_dir)

/-- The `try` block of `Repository.save`: `open(self.filepath, 'w')`
then `json.dump(data, file, ensure_ascii=False, indent=4)`.  An `.error`
carries the world at the raise point: after `openFail` the file is
untouched, after `writeFail` it holds invalid partial text. -/
def Repository.trySaveBody (r : Repository) (w : World) (data : List Json)
    (oc : SaveOutcome) : Except (PyErr × World) World :=
  match oc with
  | .ok => .ok (setFile w r.filepath (.jsonVal (.arr data)))
  | .openFail e => .error (⟨.other, e⟩, w)
  | .writeFail e junk => .error (⟨.other, e⟩, setFile w r.filepath (.invalid junk))

/-- `Repository.save`: the `try` block, with `except Exception` printing
`Помилка збереження: {e}` and returning `False`. -/
def Repository.save (r : Repository) (w : World) (data : List Json)
    (oc : SaveOutcome) : Bool × World :=
  match r.trySaveBody w data oc with
  | .ok w' => (true, w')
  | .error (e, w') => (false, logMsg w' ("Помилка збереження: " ++ e.msg))

/-- The `try` block of `Repository.load`: `open` then `json.load`, then
`data if isinstance(data, list) else []`.  Reading a file that is not
valid JSON raises `JSONDecodeError`; a vanished file raises
`FileNotFoundError`; `ioFail` is any other I/O error. -/
def Repository.tryLoadBody (r : Repository) (w : World)
    (oc : LoadOutcome) : Except PyErr (List Json) :=
  match oc with
  | .ioFail e => .error ⟨.other, e⟩
  | .ok =>
    match w.files r.filepath with
    | none => .error ⟨.decodeOrMissing, "FileNotFoundError"⟩
    | some (.invalid s) => .error ⟨.decodeOrMissing, "JSONDecodeError: " ++ s⟩
    | some (.jsonVal j) =>
      .ok (match j with
        | .arr l => l
        | _ => [])

/-- The message printed by `Repository.load`'s two `except` clauses:
`Помилка завантаження: {e}` for `JSONDecodeError`/`FileNotFoundError`,
`Неочікувана помилка: {e}` for any other exception. -/
def loadErrMsg (e : PyErr) : String :=
  match e.kind with
  | .decodeOrMissing => "Помилка завантаження: " ++ e.msg
  | .other => "Неочікувана помилка: " ++ e.msg

/-- `Repository.load`: `if not self.filepath.exists(): return []`, then
the `try` block with both `except` clauses logging and returning `[]`.
Returns the loaded list together with the world (the console may have
grown). -/
def Repository.load (r : Repository) (w : World)
    (oc : LoadOutcome) : List Json × World :=
  if (w.files r.filepath).isSome then
    match r.tryLoadBody w oc with
    | .ok l => (l, w)
    | .error e => ([], logMsg w (loadErrMsg e))
  else
    ([], w)

/-- `Repository.exists`: `self.filepath.exists()`. -/
def Repository.existsFile (r : Repository) (w : World) : Bool :=
  (w.files r.filepath).isSome

/-- The `try` block of `Repository.clear`: `if self.exists():
self.filepath.unlink(); return True` else `return False`.  The unlink
oracle is only consulted when the file is present. -/
def Repository.tryClearBody (r : Repository) (w : World)
    (oc : ClearOutcome) : Except (PyErr × World) (Bool × World) :=
  if (w.files r.filepath).isSome then
    match oc with
    | .ok => .ok (true, removeFile w r.filepath)
    | .unlinkFail e => .error (⟨.other, e⟩, w)
  else
    .ok (false, w)

/-- `Repository.clear`: the `try` block, with `except Exception` printing
`Помилка видалення: {e}` and returning `False`. -/
def Repository.clear (r : Repository) (w : World)
    (oc : ClearOutcome) : Bool × World :=
  match r.tryClearBody w oc with
  | .ok (b, w') => (b, w')
  | .error (e, w') => (false, logMsg w' ("Помилка видалення: " ++ e.msg))

/-- A Python domain object as the adapters see it: an optional `to_dict`
method (`hasattr(obj, 'to_dict')` is `some`-ness; calling it returns the
carried mapping) and the object's plain attributes, looked up by
`getattr`. -/
structure PyObj where
  toDict : Option (List (String × Json))
  attrs : List (String × Json)

/-- `getattr(obj, name, dflt)`: the attribute's value, or `dflt` when the
object has no such attribute. -/
def pyGetattr (o : PyObj) (name : String) (dflt : Json) : Json :=
  (o.attrs.lookup name).getD dflt

/-- Default filename of `ContactRepository.__init__`. -/
def contactsDefaultFilename : String := "contacts.json"

/-- Default filename of `NoteRepository.__init__`. -/
def notesDefaultFilename : String := "notes.json"

/-- `ContactRepository`: wraps a `Repository`. -/
structure ContactRepository where
  repo : Repository

/-- `ContactRepository.__init__`: `self.repo = Repository(filename)` —
note that no `storage_dir` is passed, so the `Repository` default
`Path.home() / '.personal_assistant'` is always used. -/
def ContactRepository.construct (w : World) (home : FPath)
    (filename : String) : ContactRepository × World :=
  let rw := Repository.construct w home filename none
  (⟨rw.1⟩, rw.2)

/-- `ContactRepository._contact_to_dict`: use the object's `to_dict` if it
has one, else extract the fixed field set with `getattr` defaults. -/
def ContactRepository.contact_to_dict (c : PyObj) : List (String × Json) :=
  match c.toDict with
  | some d => d
  | none =>
    [("name", pyGetattr c "name" (.str "")),
     ("phone", pyGetattr c "phone" .null),
     ("email", pyGetattr c "email" .null),
     ("birthday", pyGetattr c "birthday" .null),
     ("address", pyGetattr c "address" .null)]

/-- `ContactRepository.save_contacts`: convert each contact to a dict and
delegate to `Repository.save`. -/
def ContactRepository.save_contacts (cr : ContactRepository) (w : World)
    (contacts : List PyObj) (oc : SaveOutcome) : Bool × World :=
  cr.repo.save w (contacts.map fun c => Json.obj (ContactRepository.contact_to_dict c)) oc

/-- `ContactRepository.load_contacts`: delegate to `Repository.load`,
then apply `Contact.from_dict` (an external collaborator, passed in as
`from_dict`) to every loaded element, unchanged. -/
def ContactRepository.load_contacts {α : Type} (from_dict : Json → α)
    (cr : ContactRepository) (w : World) (oc : LoadOutcome) : List α × World :=
  let lw := cr.repo.load w oc
  (lw.1.map from_dict, lw.2)

/-- `ContactRepository.clear`: delegate to `Repository.clear`. -/
def ContactRepository.clear (cr : ContactRepository) (w : World)
    (oc : ClearOutcome) : Bool × World :=
  cr.repo.clear w oc

/-- `NoteRepository`: wraps a `Repository`. -/
structure NoteRepository where
  repo : Repository

/-- `NoteRepository.__init__`: `self.repo = Repository(filename)` — again
no `storage_dir` parameter exists. -/
def NoteRepository.construct (w : World) (home : FPath)
    (filename : String) : NoteRepository × World :=
  let rw := Repository.construct w home filename none
  (⟨rw.1⟩, rw.2)

/-- `NoteRepository._note_to_dict`: use the object's `to_dict` if it has
one, else extract `text` (default `''`) and `tags` (default `[]`). -/
def NoteRepository.note_to_dict (n : PyObj) : List (String × Json) :=
  match n.toDict with
  | some d => d
  | none =>
    [("text", pyGetattr n "text" (.str "")),
     ("tags", pyGetattr n "tags" (.arr []))]

/-- `NoteRepository.save_notes`: convert each note to a dict and delegate
to `Repository.save`. -/
def NoteRepository.save_notes (nr : NoteRepository) (w : World)
    (notes : List PyObj) (oc : SaveOutcome) : Bool × World :=
  nr.repo.save w (notes.map fun n => Json.obj (NoteRepository.note_to_dict n)) oc

/-- `NoteRepository.load_notes`: delegate to `Repository.load`, then apply
`Note.from_dict` (external collaborator `from_dict`) to every element. -/
def NoteRepository.load_notes {α : Type} (from_dict : Json → α)
    (nr : NoteRepository) (w : World) (oc : LoadOutcome) : List α × World :=
  let lw := nr.repo.load w oc
  (lw.1.map from_dict, lw.2)

/-- `NoteRepository.clear`: delegate to `Repository.clear`. -/
def NoteRepository.clear (nr : NoteRepository) (w : World)
    (oc : ClearOutcome) : Bool × World :=
  nr.repo.clear w oc

/-- C1: for every sequence `M` of JSON-serializable mappings, `Save(M)`
followed by `Load()` on the same path (with no intervening writer and no
I/O failure) succeeds and returns exactly the saved sequence — same
length, order, keys and values. -/
theorem c1_save_load_round_trip (r : Repository) (w : World)
    (M : List (List (String × Json))) :
    (r.save w (M.map Json.obj) .ok).1 = true ∧
    (r.load (r.save w (M.map Json.obj) .ok).2 .ok).1 = M.map Json.obj := by
  constructor
  · simp [Repository.save, Repository.trySaveBody]
  · simp [Repository.save, Repository.trySaveBody, Repository.load,
      Repository.tryLoadBody, setFile]

/-- C2: `Load()` is total and never raises: it returns `[]` when the file
does not exist, when the file parses to a non-array JSON value, when the
content is not valid JSON, and on any other I/O error; and every
non-empty result is exactly the element list of a complete well-formed
JSON array on disk (never a partial or corrupt collection). -/
theorem c2_load_total_never_raises (r : Repository) (w : World)
    (oc : LoadOutcome) :
    (w.files r.filepath = none → (r.load w oc).1 = []) ∧
    (∀ j, w.files r.filepath = some (.jsonVal j) →
      (∀ l, j ≠ Json.arr l) → (r.load w oc).1 = []) ∧
    (∀ s, w.files r.filepath = some (.invalid s) → (r.load w oc).1 = []) ∧
    (∀ e, oc = .ioFail e → (r.load w oc).1 = []) ∧
    ((r.load w oc).1 ≠ [] →
      oc = .ok ∧ w.files r.filepath = some (.jsonVal (.arr (r.load w oc).1))) := by
  refine ⟨?_, ?_, ?_, ?_, ?_⟩
  · intro h
    simp [Repository.load, h]
  · intro j hj hnot
    cases oc with
    | ioFail e => simp [Repository.load, Repository.tryLoadBody, hj]
    | ok =>
      cases j with
      | arr l => exact absurd rfl (hnot l)
      | null => simp [Repository.load, Repository.tryLoadBody, hj]
      | bool b => simp [Repository.load, Repository.tryLoadBody, hj]
      | num n => simp [Repository.load, Repository.tryLoadBody, hj]
      | str s => simp [Repository.load, Repository.tryLoadBody, hj]
      | obj f => simp [Repository.load, Repository.tryLoadBody, hj]
  · intro s hs
    cases oc with
    | ioFail e => simp [Repository.load, Repository.tryLoadBody, hs]
    | ok => simp [Repository.load, Repository.tryLoadBody, hs]
  · intro e he
    subst he
    cases hf : w.files r.filepath with
    | none => simp [Repository.load, hf]
    | some c => simp [Repository.load, Repository.tryLoadBody, hf]
  · intro hne
    cases oc with
    | ioFail e =>
      exfalso
      apply hne
      cases hf : w.files r.filepath with
      | none => simp [Repository.load, hf]
      | some c => simp [Repository.load, Repository.tryLoadBody, hf]
    | ok =>
      refine ⟨rfl, ?_⟩
      cases hf : w.files r.filepath with
      | none => exact absurd (by simp [Repository.load, hf]) hne
      | some c =>
        cases c with
        | invalid s => exact absurd (by simp [Repository.load, Repository.tryLoadBody, hf]) hne
        | jsonVal j =>
          cases j with
          | arr l => simp [Repository.load, Repository.tryLoadBody, hf]
          | null => exact absurd (by simp [Repository.load, Repository.tryLoadBody, hf]) hne
          | bool b => exact absurd (by simp [Repository.load, Repository.tryLoadBody, hf]) hne
          | num n => exact absurd (by simp [Repository.load, Repository.tryLoadBody, hf]) hne
          | str s => exact absurd (by simp [Repository.load, Repository.tryLoadBody, hf]) hne
          | obj f => exact absurd (by simp [Repository.load, Repository.tryLoadBody, hf]) hne

/-- C2 witness: on a file holding the text `not valid json`, `Load()`
returns `[]`. -/
theorem c2_load_total_never_raises_witness :
    ((Repository.mk ["d"] ["d", "f.json"]).load
      (setFile emptyWorld ["d", "f.json"] (.invalid "not valid json")) .ok).1 = [] :=
  (c2_load_total_never_raises (Repository.mk ["d"] ["d", "f.json"])
    (setFile emptyWorld ["d", "f.json"] (.invalid "not valid json")) .ok).2.2.1
    "not valid json" (by simp [setFile, emptyWorld])

/-- C3 counterexample: it is NOT true that a `Save` returning failure
leaves the previously saved content intact — `open(filepath, 'w')`
truncates the file before `json.dump` runs, so a save that fails during
the write replaces the previous complete array with invalid partial
text.  Concretely: a file holding `[{"name": "Ann"}]`, then a save of
`[]` that fails mid-write leaving the text `[`. -/
theorem c3_save_not_atomic_counterexample :
    ¬ (∀ (r : Repository) (w : World) (M : List Json) (oc : SaveOutcome),
        (r.save w M oc).1 = false →
        (r.save w M oc).2.files r.filepath = w.files r.filepath) := by
  intro h
  have hx := h (Repository.mk ["d"] ["d", "f.json"])
    (setFile emptyWorld ["d", "f.json"]
      (.jsonVal (.arr [.obj [("name", .str "Ann")]])))
    [] (.writeFail "disk full" "[")
    (by simp [Repository.save, Repository.trySaveBody])
  simp [Repository.save, Repository.trySaveBody, setFile, logMsg,
    emptyWorld] at hx

/-- C3 amended: a successful `Save` leaves the file holding exactly the
complete new content, and a `Save` that fails before the file is opened
leaves the previous content intact; but a `Save` that fails during the
write leaves the file holding invalid partial text — the previous
content is lost, and a subsequent `Load` of it yields `[]`, not the old
collection. -/
theorem c3_save_content_by_outcome (r : Repository) (w : World)
    (M : List Json) (e junk : String) :
    ((r.save w M .ok).1 = true ∧
      (r.save w M .ok).2.files r.filepath = some (.jsonVal (.arr M))) ∧
    ((r.save w M (.openFail e)).1 = false ∧
      (r.save w M (.openFail e)).2.files r.filepath = w.files r.filepath) ∧
    ((r.save w M (.writeFail e junk)).1 = false ∧
      (r.save w M (.writeFail e junk)).2.files r.filepath =
        some (.invalid junk) ∧
      (r.load (r.save w M (.writeFail e junk)).2 .ok).1 = []) := by
  refine ⟨⟨?_, ?_⟩, ⟨?_, ?_⟩, ⟨?_, ?_, ?_⟩⟩ <;>
    simp [Repository.save, Repository.trySaveBody, Repository.load,
      Repository.tryLoadBody, setFile, logMsg]

/-- C4 counterexample: it is NOT true that (construction never creates
the file and) a failed `Save` on a not-yet-existing file leaves the file
non-existent: `open(filepath, 'w')` creates the file as soon as the save
opens it, so a save that fails during the write leaves an
(invalid-content) file behind and `Exists()` becomes true. -/
theorem c4_failed_save_counterexample :
    ¬ ((∀ (w : World) (home : FPath) (fn : String) (sd : Option FPath),
          (Repository.construct w home fn sd).2.files
              (Repository.construct w home fn sd).1.filepath =
            w.files (Repository.construct w home fn sd).1.filepath) ∧
       (∀ (r : Repository) (w : World) (M : List Json) (oc : SaveOutcome),
          w.files r.filepath = none → (r.save w M oc).1 = false →
          (r.save w M oc).2.files r.filepath = none)) := by
  rintro ⟨-, h⟩
  have hx := h (Repository.mk ["d"] ["d", "f.json"]) emptyWorld []
    (.writeFail "disk full" "") rfl
    (by simp [Repository.save, Repository.trySaveBody])
  simp [Repository.save, Repository.trySaveBody, setFile, logMsg,
    emptyWorld] at hx

/-- C4 amended: construction creates the storage directory but never the
file, and a `Save` that fails at `open` leaves a non-existent file
non-existent; however a `Save` that fails during the write creates the
file (with invalid content), so `Exists()` can become true even though
`Save` returned failure. -/
theorem c4_lazy_file_creation (w : World) (home : FPath) (fn : String)
    (sd : Option FPath) (r : Repository) (w' : World) (M : List Json)
    (e junk : String) :
    ((Repository.construct w home fn sd).2.files
        (Repository.construct w home fn sd).1.filepath =
      w.files (Repository.construct w home fn sd).1.filepath) ∧
    ((Repository.construct w home fn sd).2.dirs
        (Repository.construct w home fn sd).1.storage_dir = true) ∧
    (w'.files r.filepath = none →
      (r.save w' M (.openFail e)).1 = false ∧
      r.existsFile (r.save w' M (.openFail e)).2 = false) ∧
    ((r.save w' M (.writeFail e junk)).1 = false ∧
      r.existsFile (r.save w' M (.writeFail e junk)).2 = true) := by
  refine ⟨?_, ?_, fun hn => ⟨?_, ?_⟩, ?_, ?_⟩ <;>
    simp [Repository.construct, ensureDir, List.isPrefixOf_iff_prefix,
      Repository.save, Repository.trySaveBody, Repository.existsFile,
      setFile, logMsg, *]

/-- C4 witness: with the file absent, a save failing at `open` returns
failure and the file still does not exist. -/
theorem c4_lazy_file_creation_witness :
    ((Repository.mk ["d"] ["d", "f.json"]).save emptyWorld []
        (.openFail "PermissionError")).1 = false ∧
    (Repository.mk ["d"] ["d", "f.json"]).existsFile
      ((Repository.mk ["d"] ["d", "f.json"]).save emptyWorld []
        (.openFail "PermissionError")).2 = false :=
  (c4_lazy_file_creation emptyWorld ["home"] "f.json" none
    (Repository.mk ["d"] ["d", "f.json"]) emptyWorld []
    "PermissionError" "").2.2.1 rfl

/-- C5: no exception escapes any store operation: whenever the `try`
body of `save`, `load` or `clear` raises, the operation returns the
boolean failure signal (`false`) or the empty collection, together with
exactly one logged message, and nothing is propagated to the caller. -/
theorem c5_no_error_escapes (r : Repository) (w : World) (data : List Json)
    (ocs : SaveOutcome) (ocl : LoadOutcome) (occ : ClearOutcome) :
    (∀ e w', r.trySaveBody w data ocs = .error (e, w') →
      r.save w data ocs = (false, logMsg w' ("Помилка збереження: " ++ e.msg))) ∧
    (∀ e, (w.files r.filepath).isSome = true →
      r.tryLoadBody w ocl = .error e →
      r.load w ocl = ([], logMsg w (loadErrMsg e))) ∧
    (∀ e w', r.tryClearBody w occ = .error (e, w') →
      r.clear w occ = (false, logMsg w' ("Помилка видалення: " ++ e.msg))) := by
  refine ⟨fun e w' h => ?_, fun e hs h => ?_, fun e w' h => ?_⟩
  · simp [Repository.save, h]
  · simp [Repository.load, hs, h]
  · simp [Repository.clear, h]

/-- C5 witness: loading a file holding invalid JSON returns `[]` and
logs one decode-error message. -/
theorem c5_no_error_escapes_witness :
    (Repository.mk ["d"] ["d", "f.json"]).load
      (setFile emptyWorld ["d", "f.json"] (.invalid "oops")) .ok =
    ([], logMsg (setFile emptyWorld ["d", "f.json"] (.invalid "oops"))
      (loadErrMsg ⟨.decodeOrMissing, "JSONDecodeError: " ++ "oops"⟩)) :=
  (c5_no_error_escapes (Repository.mk ["d"] ["d", "f.json"])
    (setFile emptyWorld ["d", "f.json"] (.invalid "oops")) [] .ok .ok .ok).2.1
    ⟨.decodeOrMissing, "JSONDecodeError: " ++ "oops"⟩
    (by simp [setFile, emptyWorld]) (by simp [Repository.tryLoadBody, setFile, emptyWorld])

/-- C6: if the file exists, `Clear()` deletes it and returns `true`; an
immediately following `Clear()` returns `false` (whatever the unlink
oracle, since unlink is no longer attempted); if the file was absent,
`Clear()` returns `false` and leaves the world unchanged; after either
outcome `Exists()` is `false`. -/
theorem c6_clear_idempotent (r : Repository) (w : World) :
    (r.existsFile w = true →
      (r.clear w .ok).1 = true ∧
      r.existsFile (r.clear w .ok).2 = false ∧
      (∀ oc₂, (r.clear (r.clear w .ok).2 oc₂).1 = false ∧
        r.existsFile (r.clear (r.clear w .ok).2 oc₂).2 = false)) ∧
    (r.existsFile w = false →
      ∀ oc, r.clear w oc = (false, w)) := by
  constructor
  · intro h
    have h' : (w.files r.filepath).isSome = true := h
    refine ⟨?_, ?_, fun oc₂ => ⟨?_, ?_⟩⟩ <;>
      simp [Repository.clear, Repository.tryClearBody, Repository.existsFile,
        removeFile, h']
  · intro h oc
    have h' : (w.files r.filepath).isSome = false := h
    simp [Repository.clear, Repository.tryClearBody, h']

/-- C6 witness: on a world whose file holds `[]`, the first `Clear()`
returns `true` and the second returns `false`. -/
theorem c6_clear_idempotent_witness :
    ((Repository.mk ["d"] ["d", "f.json"]).clear
      (setFile emptyWorld ["d", "f.json"] (.jsonVal (.arr []))) .ok).1 = true ∧
    ((Repository.mk ["d"] ["d", "f.json"]).clear
      ((Repository.mk ["d"] ["d", "f.json"]).clear
        (setFile emptyWorld ["d", "f.json"] (.jsonVal (.arr []))) .ok).2 .ok).1 = false := by
  have hx := (c6_clear_idempotent (Repository.mk ["d"] ["d", "f.json"])
    (setFile emptyWorld ["d", "f.json"] (.jsonVal (.arr [])))).1
    (by simp [Repository.existsFile, setFile, emptyWorld])
  exact ⟨hx.1, (hx.2.2 .ok).1⟩

/-- C7: the adapters prefer the object's own `to_dict`, and otherwise
build a mapping from the fixed field set with defaults for missing
attributes: contacts get `name` defaulting to `""` and `phone`, `email`,
`birthday`, `address` defaulting to `null`; notes get `text` defaulting
to `""` and `tags` defaulting to `[]`. -/
theorem c7_to_dict_canonical_or_defaults (c n : PyObj) :
    (∀ d, c.toDict = some d → ContactRepository.contact_to_dict c = d) ∧
    (c.toDict = none →
      (ContactRepository.contact_to_dict c).map Prod.fst =
        ["name", "phone", "email", "birthday", "address"] ∧
      (c.attrs.lookup "name" = none →
        (ContactRepository.contact_to_dict c).lookup "name" = some (.str "")) ∧
      (c.attrs.lookup "phone" = none →
        (ContactRepository.contact_to_dict c).lookup "phone" = some .null) ∧
      (c.attrs.lookup "email" = none →
        (ContactRepository.contact_to_dict c).lookup "email" = some .null) ∧
      (c.attrs.lookup "birthday" = none →
        (ContactRepository.contact_to_dict c).lookup "birthday" = some .null) ∧
      (c.attrs.lookup "address" = none →
        (ContactRepository.contact_to_dict c).lookup "address" = some .null)) ∧
    (∀ d, n.toDict = some d → NoteRepository.note_to_dict n = d) ∧
    (n.toDict = none →
      (NoteRepository.note_to_dict n).map Prod.fst = ["text", "tags"] ∧
      (n.attrs.lookup "text" = none →
        (NoteRepository.note_to_dict n).lookup "text" = some (.str "")) ∧
      (n.attrs.lookup "tags" = none →
        (NoteRepository.note_to_dict n).lookup "tags" = some (.arr []))) := by
  refine ⟨fun d hd => ?_, fun hc => ?_, fun d hd => ?_, fun hn => ?_⟩
  · simp [ContactRepository.contact_to_dict, hd]
  · refine ⟨?_, fun hl => ?_, fun hl => ?_, fun hl => ?_, fun hl => ?_, fun hl => ?_⟩ <;>
      simp [ContactRepository.contact_to_dict, hc, pyGetattr, List.lookup, *]
  · simp [NoteRepository.note_to_dict, hd]
  · refine ⟨?_, fun hl => ?_, fun hl => ?_⟩ <;>
      simp [NoteRepository.note_to_dict, hn, pyGetattr, List.lookup, *]

/-- C7 witness: an attribute-less object without `to_dict` serializes to
all defaults: `email` is `null` for contacts, `tags` is `[]` for notes. -/
theorem c7_to_dict_canonical_or_defaults_witness :
    (ContactRepository.contact_to_dict ⟨none, []⟩).lookup "email" =
      some Json.null ∧
    (NoteRepository.note_to_dict ⟨none, []⟩).lookup "tags" =
      some (Json.arr []) := by
  have hx := c7_to_dict_canonical_or_defaults ⟨none, []⟩ ⟨none, []⟩
  exact ⟨(hx.2.1 rfl).2.2.2.1 rfl, (hx.2.2.2 rfl).2.2 rfl⟩

/-- C8 counterexample: it is NOT true that an adapter instance can place
its file in an arbitrary storage directory — `ContactRepository.__init__`
takes only a filename and always constructs `Repository(filename)` with
the default `Path.home() / '.personal_assistant'` directory, so no
choice of constructor argument reaches the directory `/tmp`. -/
theorem c8_no_storage_dir_override_counterexample :
    ¬ (∀ (sd : FPath) (f : String), ∃ fn : String,
        (ContactRepository.construct emptyWorld ["home", "user"] fn).1.repo.filepath =
          sd ++ [f]) := by
  intro h
  obtain ⟨fn, hfn⟩ := h ["tmp"] "x.json"
  simp [ContactRepository.construct, Repository.construct] at hfn

/-- C8 amended: the default locations are
`<home>/.personal_assistant/contacts.json` and
`<home>/.personal_assistant/notes.json`; an adapter instance can
override only the filename (the file always lives in
`<home>/.personal_assistant`); a storage-directory override exists only
on the generic `Repository`, which the adapters never pass. -/
theorem c8_default_locations (w : World) (home : FPath) (fn : String)
    (sd : FPath) :
    (ContactRepository.construct w home contactsDefaultFilename).1.repo.filepath =
      home ++ [".personal_assistant", "contacts.json"] ∧
    (NoteRepository.construct w home notesDefaultFilename).1.repo.filepath =
      home ++ [".personal_assistant", "notes.json"] ∧
    (ContactRepository.construct w home fn).1.repo.filepath =
      home ++ [".personal_assistant", fn] ∧
    (NoteRepository.construct w home fn).1.repo.filepath =
      home ++ [".personal_assistant", fn] ∧
    (Repository.construct w home fn (some sd)).1.filepath = sd ++ [fn] := by
  refine ⟨?_, ?_, ?_, ?_, ?_⟩ <;>
    simp [ContactRepository.construct, NoteRepository.construct,
      Repository.construct, contactsDefaultFilename, notesDefaultFilename]

/-- C9: `Load()` does no per-element validation: whenever the file holds
a complete JSON array, its elements are returned exactly and in order —
even non-mapping elements such as numbers or strings — and the adapters
apply their `from_dict` reconstruction to each element unchanged. -/
theorem c9_no_element_validation {α β : Type}
    (cr : ContactRepository) (nr : NoteRepository) (w w' : World)
    (l l' : List Json) (cf : Json → α) (nf : Json → β)
    (hc : w.files cr.repo.filepath = some (.jsonVal (.arr l)))
    (hn : w'.files nr.repo.filepath = some (.jsonVal (.arr l'))) :
    (cr.repo.load w .ok).1 = l ∧
    (ContactRepository.load_contacts cf cr w .ok).1 = l.map cf ∧
    (NoteRepository.load_notes nf nr w' .ok).1 = l'.map nf := by
  refine ⟨?_, ?_, ?_⟩ <;>
    simp [Repository.load, Repository.tryLoadBody,
      ContactRepository.load_contacts, NoteRepository.load_notes, hc, hn]

/-- C9 witness: a file holding `[3, "x"]` (no mappings at all) loads as
exactly those two elements, handed unchanged to reconstruction. -/
theorem c9_no_element_validation_witness :
    (ContactRepository.load_contacts (fun j => j)
      ⟨Repository.mk ["d"] ["d", "c.json"]⟩
      (setFile emptyWorld ["d", "c.json"]
        (.jsonVal (.arr [.num 3, .str "x"]))) .ok).1 =
      ([Json.num 3, Json.str "x"].map fun j => j) := by
  have hx := c9_no_element_validation
    ⟨Repository.mk ["d"] ["d", "c.json"]⟩
    ⟨Repository.mk ["d"] ["d", "n.json"]⟩
    (setFile emptyWorld ["d", "c.json"] (.jsonVal (.arr [.num 3, .str "x"])))
    (setFile emptyWorld ["d", "n.json"] (.jsonVal (.arr [])))
    [.num 3, .str "x"] [] (fun j => j) (fun j => j)
    (by simp [setFile, emptyWorld]) (by simp [setFile, emptyWorld])
  exact hx.2.1

/-- C10: every operation touches at most its own path: construction
changes no file and no console line, and creates only the storage
directory and its ancestors; `save` and `clear` change no directory and
no file other than `storage_dir/filename`. -/
theorem c10_frame (w : World) (home : FPath) (fn : String)
    (sd : Option FPath) (r : Repository) (w' : World) (M : List Json)
    (ocs : SaveOutcome) (occ : ClearOutcome) (q : FPath) :
    ((Repository.construct w home fn sd).2.files q = w.files q) ∧
    ((Repository.construct w home fn sd).2.console = w.console) ∧
    (q.isPrefixOf (Repository.construct w home fn sd).1.storage_dir = false →
      (Repository.construct w home fn sd).2.dirs q = w.dirs q) ∧
    ((r.save w' M ocs).2.dirs q = w'.dirs q) ∧
    (q ≠ r.filepath → (r.save w' M ocs).2.files q = w'.files q) ∧
    ((r.clear w' occ).2.dirs q = w'.dirs q) ∧
    (q ≠ r.filepath → (r.clear w' occ).2.files q = w'.files q) := by
  refine ⟨?_, ?_, fun hq => ?_, ?_, fun hq => ?_, ?_, fun hq => ?_⟩
  · simp [Repository.construct, ensureDir]
  · simp [Repository.construct, ensureDir]
  · simp only [Repository.construct] at hq ⊢
    simp [ensureDir, hq]
  · cases ocs <;>
      simp [Repository.save, Repository.trySaveBody, setFile, logMsg]
  · cases ocs <;>
      simp [Repository.save, Repository.trySaveBody, setFile, logMsg, hq]
  · cases h : (w'.files r.filepath).isSome <;> cases occ <;>
      simp [Repository.clear, Repository.tryClearBody, removeFile, logMsg, h]
  · cases h : (w'.files r.filepath).isSome <;> cases occ <;>
      simp [Repository.clear, Repository.tryClearBody, removeFile, logMsg, h, hq]

/-- C10 witness: a save and a clear leave an unrelated path untouched. -/
theorem c10_frame_witness :
    ((Repository.mk ["d"] ["d", "f.json"]).save emptyWorld [] .ok).2.files
        ["other"] = emptyWorld.files ["other"] ∧
    ((Repository.mk ["d"] ["d", "f.json"]).clear emptyWorld .ok).2.files
        ["other"] = emptyWorld.files ["other"] := by
  have hx := c10_frame emptyWorld ["h"] "f.json" none
    (Repository.mk ["d"] ["d", "f.json"]) emptyWorld [] .ok .ok ["other"]
  exact ⟨hx.2.2.2.2.1 (by decide), hx.2.2.2.2.2.2 (by decide)⟩
